import Mathlib

/-!
Shallow embedding of the staged data-processing exercises:
`src/ex0/stream_processor.py`, `src/ex1/data_stream.py` and
`src/ex2/nexus_pipeline.py`.  Python values are modelled by the
inductive `Value`; Python floats are idealised as exact rationals;
machine-level effects (printing) are dropped, exceptions are modelled
with `Except String`, and object state is passed explicitly.
-/

/-- A Python value as it occurs in the repository: `None`, an `int`,
a `float` (idealised as an exact rational), a `str`, a `list`, or a
`dict` with string keys (an ordered association list, mirroring
insertion order of Python dicts). -/
inductive Value : Type
  | none : Value
  | int (n : ℤ) : Value
  | float (q : ℚ) : Value
  | str (s : String) : Value
  | list (xs : List Value) : Value
  | dict (fields : List (String × Value)) : Value

/-- `result is None` check used by `ProcessingPipeline.process`. -/
def Value.isNone : Value → Bool
  | Value.none => true
  | _ => false

/-- Python `type(v).__name__` for the shapes in `Value`, used to build
`TypeError` messages. -/
def Value.typeName : Value → String
  | Value.none => "NoneType"
  | Value.int _ => "int"
  | Value.float _ => "float"
  | Value.str _ => "str"
  | Value.list _ => "list"
  | Value.dict _ => "dict"

/-- Numeric payload of a value: `isinstance(x, (int, float))` plus the
number itself, idealised into `ℚ`. -/
def Value.numVal : Value → Option ℚ
  | Value.int n => some (n : ℚ)
  | Value.float q => some q
  | _ => Option.none

/-- `isinstance(x, (int, float))`. -/
def Value.isNum : Value → Bool
  | Value.int _ => true
  | Value.float _ => true
  | _ => false

/-- `isinstance(x, float)` — the test `SensorStream.process_batch` uses
to select the elements entering the average. -/
def floatVal : Value → Option ℚ
  | Value.float q => some q
  | _ => Option.none

/-- Substring test (Python `needle in hay`), on the character lists. -/
def strContainsSub (hay needle : String) : Bool :=
  hay.toList.tails.any (fun t => needle.toList.isPrefixOf t)

/-- ASCII lowercasing of one character; the strings in the repository
are ASCII, where this agrees with Python's `str.lower`. -/
def asciiLower (c : Char) : Char :=
  if 65 ≤ c.toNat ∧ c.toNat ≤ 90 then Char.ofNat (c.toNat + 32) else c

/-- Python `str.lower`, idealised to ASCII. -/
def pyLower (s : String) : String := String.mk (s.data.map asciiLower)

/-!  ## ex2: `ProcessingPipeline.process` (nexus_pipeline.py, lines 148-156)

A stage is anything with `process : Any -> Any` (the `ProcessingStage`
protocol), so a pipeline is a list of functions `Value → Value`. -/

/-- `ProcessingPipeline.process`: thread `result` through the stages in
order; before invoking each stage, if `result is None`, stop and return
`None`. -/
def pipelineProcess (stages : List (Value → Value)) (data : Value) : Value :=
  match stages with
  | [] => data
  | stage :: rest =>
      if data.isNone then Value.none
      else pipelineProcess rest (stage data)

/-- Instrumented form of `ProcessingPipeline.process` that also returns
the list of inputs actually handed to a stage's `process`, in order. -/
def pipelineProcessTrace (stages : List (Value → Value)) (data : Value) :
    Value × List Value :=
  match stages with
  | [] => (data, [])
  | stage :: rest =>
      if data.isNone then (Value.none, [])
      else
        let r := pipelineProcessTrace rest (stage data)
        (r.1, data :: r.2)

lemma Value.isNone_iff (v : Value) : v.isNone = true ↔ v = Value.none := by
  cases v <;> simp [Value.isNone]

lemma pipelineProcessTrace_fst (stages : List (Value → Value)) (v : Value) :
    (pipelineProcessTrace stages v).1 = pipelineProcess stages v := by
  induction stages generalizing v with
  | nil => rfl
  | cons s rest ih =>
      by_cases h : v.isNone = true
      · simp [pipelineProcessTrace, pipelineProcess, h]
      · simp only [Bool.not_eq_true] at h
        simp [pipelineProcessTrace, pipelineProcess, h, ih]

lemma pipelineProcessTrace_no_none (stages : List (Value → Value)) (v : Value) :
    ((pipelineProcessTrace stages v).2.all fun u => !u.isNone) = true := by
  induction stages generalizing v with
  | nil => rfl
  | cons s rest ih =>
      by_cases h : v.isNone = true
      · simp [pipelineProcessTrace, h]
      · simp only [Bool.not_eq_true] at h
        simp [pipelineProcessTrace, h, ih (s v)]

lemma pipelineProcess_append_none (pre post : List (Value → Value)) (v : Value)
    (h : (pipelineProcess pre v).isNone = true) :
    pipelineProcess (pre ++ post) v = Value.none := by
  induction pre generalizing v with
  | nil =>
      have hv : v = Value.none :=
        (Value.isNone_iff v).mp (by simpa [pipelineProcess] using h)
      subst hv
      cases post with
      | nil => rfl
      | cons s rest => simp [pipelineProcess, Value.isNone]
  | cons s rest ih =>
      by_cases hv : v.isNone = true
      · simp [pipelineProcess, hv]
      · simp only [Bool.not_eq_true] at hv
        simp only [pipelineProcess, hv, Bool.false_eq_true, if_false,
          List.cons_append] at h ⊢
        exact ih (s v) h

/-- C1: `Pipeline.process` applies its stages left-to-right from the
input; whenever the running result is the absence-value before a stage
runs, it stops and returns the absence-value, so no stage is ever
invoked with the absence-value and the stages after the stopping point
are never invoked (the output does not depend on them). -/
theorem pipeline_short_circuit :
    (∀ (stages : List (Value → Value)) (v : Value),
        (pipelineProcessTrace stages v).1 = pipelineProcess stages v) ∧
    (∀ (stages : List (Value → Value)) (v : Value),
        ((pipelineProcessTrace stages v).2.all fun u => !u.isNone) = true) ∧
    (∀ (pre post : List (Value → Value)) (v : Value),
        (pipelineProcess pre v).isNone = true →
          pipelineProcess (pre ++ post) v = Value.none) :=
  ⟨pipelineProcessTrace_fst, pipelineProcessTrace_no_none,
    pipelineProcess_append_none⟩

/-- Witness for C1 at a concrete pipeline: a stage that returns the
absence-value short-circuits the rest. -/
theorem pipeline_short_circuit_witness :
    pipelineProcess
        [fun _ => Value.none, fun _ => Value.int 7] (Value.int 0) =
      Value.none :=
  pipeline_short_circuit.2.2 [fun _ => Value.none] [fun _ => Value.int 7]
    (Value.int 0) (by rfl)

/-- C10: the empty pipeline is the identity: with no stages,
`Pipeline.process` returns its input unchanged, the absence-value
included. -/
theorem empty_pipeline_identity : ∀ v : Value, pipelineProcess [] v = v :=
  fun _ => rfl

/-!  ## ex1: data streams (data_stream.py)

Each `DataStream` subclass is modelled as an explicit state record;
`process_batch` returns the updated state together with a structured
summary that carries exactly the data interpolated into the result
string of the source (the constant text of each f-string is recorded in
the constructor's doc comment). -/

/-- A Python number (`int` or `float`), as produced by `sum`; the tag
tracks Python's int/float distinction, the payload is the idealised
rational. -/
inductive PyNum : Type
  | int (n : ℤ) : PyNum
  | float (q : ℚ) : PyNum
  deriving DecidableEq

/-- `type(v).__name__` for a `PyNum`. -/
def PyNum.typeName : PyNum → String
  | PyNum.int _ => "int"
  | PyNum.float _ => "float"

/-- The rational payload of a `PyNum`. -/
def PyNum.toRat : PyNum → ℚ
  | PyNum.int n => (n : ℚ)
  | PyNum.float q => q

/-- Python `abs` on a number (`abs(int)` is an `int`). -/
def PyNum.abs : PyNum → PyNum
  | PyNum.int n => PyNum.int |n|
  | PyNum.float q => PyNum.float |q|

/-- One step of Python `sum`: add a batch element to the numeric
accumulator; a non-numeric element raises `TypeError` with the message
CPython uses for `+` on unsupported operands. -/
def pyAddNum (acc : PyNum) (v : Value) : Except String PyNum :=
  match acc, v with
  | PyNum.int a, Value.int b => Except.ok (PyNum.int (a + b))
  | PyNum.int a, Value.float q => Except.ok (PyNum.float ((a : ℚ) + q))
  | PyNum.float p, Value.int b => Except.ok (PyNum.float (p + (b : ℚ)))
  | PyNum.float p, Value.float q => Except.ok (PyNum.float (p + q))
  | a, b =>
      Except.error ("unsupported operand type(s) for +: \x27"
        ++ a.typeName ++ "\x27 and \x27" ++ b.typeName ++ "\x27")

/-- Python `sum(batch)`: fold `+` over the batch starting from the int
`0`, stopping at the first `TypeError`. -/
def pySum (batch : List Value) : Except String PyNum :=
  batch.foldlM pyAddNum (PyNum.int 0)

/-- State of a `SensorStream` object. -/
structure SensorState : Type where
  stream_id : String
  processed_count : Nat
  last_batch_count : Nat
  deriving DecidableEq

/-- State of a `TransactionStream` object. -/
structure TransState : Type where
  stream_id : String
  processed_count : Nat
  last_batch_count : Nat
  deriving DecidableEq

/-- State of an `EventStream` object. -/
structure EventState : Type where
  stream_id : String
  processed_count : Nat
  deriving DecidableEq

/-- Result of `SensorStream.process_batch`, carrying the data of the
returned string. -/
inductive SensorSummary : Type
  /-- "Sensor analysis: no data" -/
  | noData : SensorSummary
  /-- "Sensor analysis: \x7bn\x7d readings processed" -/
  | countOnly (n : Nat) : SensorSummary
  /-- "Sensor analysis: \x7bn\x7d readings processed, avg temp:
  \x7bavg:.1f\x7d°C" (avg kept exact here; the source formats it with
  one decimal) -/
  | withAvg (n : Nat) (avg : ℚ) : SensorSummary
  deriving DecidableEq

/-- Result of `TransactionStream.process_batch`. -/
inductive TransSummary : Type
  /-- "Transaction analysis: no transactions" -/
  | noData : TransSummary
  /-- "Transaction analysis: \x7bcount\x7d operations, net flow:
  \x7bsign\x7d\x7bmagnitude\x7d units" -/
  | flow (count : Nat) (sign : String) (magnitude : PyNum) : TransSummary
  deriving DecidableEq

/-- Result of `EventStream.process_batch`. -/
inductive EventSummary : Type
  /-- "Event analysis: no events" -/
  | noData : EventSummary
  /-- "Event analysis: \x7bcount\x7d events, \x7berrors\x7d error
  detected" -/
  | counts (count errors : Nat) : EventSummary
  deriving DecidableEq

/-- `SensorStream.process_batch` (data_stream.py, lines 81-99). -/
def sensorProcessBatch (st : SensorState) (batch : List Value) :
    SensorState × SensorSummary :=
  let st1 := { st with last_batch_count := batch.length }
  match batch with
  | [] => (st1, SensorSummary.noData)
  | _ :: _ =>
      let st2 :=
        { st1 with processed_count := st1.processed_count + batch.length }
      let temps := batch.filterMap floatVal
      match temps with
      | [] => (st2, SensorSummary.countOnly batch.length)
      | _ :: _ =>
          (st2, SensorSummary.withAvg batch.length
            (temps.sum / (temps.length : ℚ)))

/-- `TransactionStream.process_batch` (data_stream.py, lines 145-160).
The count increment happens before `sum`, so a `TypeError` from `sum`
leaves the count already incremented, as in the source. -/
def transProcessBatch (st : TransState) (batch : List Value) :
    TransState × Except String TransSummary :=
  let st1 := { st with last_batch_count := batch.length }
  match batch with
  | [] => (st1, Except.ok TransSummary.noData)
  | _ :: _ =>
      let st2 :=
        { st1 with processed_count := st1.processed_count + batch.length }
      match pySum batch with
      | Except.error e => (st2, Except.error e)
      | Except.ok net =>
          let sgn :=
            if 0 < net.toRat then "+" else if net.toRat < 0 then "-" else ""
          (st2, Except.ok (TransSummary.flow batch.length sgn net.abs))

/-- `EventStream.process_batch` (data_stream.py, lines 192-202). -/
def eventProcessBatch (st : EventState) (batch : List Value) :
    EventState × EventSummary :=
  match batch with
  | [] => (st, EventSummary.noData)
  | _ :: _ =>
      let st1 := { st with processed_count := st.processed_count + batch.length }
      let errors := (batch.filter fun e =>
        match e with
        | Value.str s => strContainsSub (pyLower s) ("error")
        | _ => false).length
      (st1, EventSummary.counts batch.length errors)

/-- A registered stream: one of the three `DataStream` subclasses with
its state. -/
inductive Stream1 : Type
  | sensor (st : SensorState) : Stream1
  | transaction (st : TransState) : Stream1
  | event (st : EventState) : Stream1
  deriving DecidableEq

/-- The `stream_id` attribute of a stream. -/
def Stream1.stream_id : Stream1 → String
  | Stream1.sensor st => st.stream_id
  | Stream1.transaction st => st.stream_id
  | Stream1.event st => st.stream_id

/-- The `processed_count` attribute of a stream. -/
def Stream1.processed_count : Stream1 → Nat
  | Stream1.sensor st => st.processed_count
  | Stream1.transaction st => st.processed_count
  | Stream1.event st => st.processed_count

/-- Summary returned by `process_batch`, tagged by variant. -/
inductive StreamSummary : Type
  | sensor (s : SensorSummary) : StreamSummary
  | transaction (s : TransSummary) : StreamSummary
  | event (s : EventSummary) : StreamSummary
  deriving DecidableEq

/-- Dynamic dispatch of `process_batch` over the three variants. -/
def Stream1.processBatch (s : Stream1) (batch : List Value) :
    Stream1 × Except String StreamSummary :=
  match s with
  | Stream1.sensor st =>
      let r := sensorProcessBatch st batch
      (Stream1.sensor r.1, Except.ok (StreamSummary.sensor r.2))
  | Stream1.transaction st =>
      let r := transProcessBatch st batch
      (Stream1.transaction r.1, r.2.map StreamSummary.transaction)
  | Stream1.event st =>
      let r := eventProcessBatch st batch
      (Stream1.event r.1, Except.ok (StreamSummary.event r.2))

/-- The predicate of `TransactionStream.filter_data`'s list
comprehension: `abs(x) >= 100`; `abs` raises `TypeError` on
non-numeric values. -/
def absGe100 (v : Value) : Except String Bool :=
  match v with
  | Value.int n => Except.ok (decide ((100 : ℤ) ≤ |n|))
  | Value.float q => Except.ok (decide ((100 : ℚ) ≤ |q|))
  | _ =>
      Except.error ("bad operand type for abs(): \x27"
        ++ v.typeName ++ "\x27")

/-- A Python list comprehension with a possibly-raising predicate:
elements are tested left to right, the first exception propagates. -/
def filterExcept (p : Value → Except String Bool) :
    List Value → Except String (List Value)
  | [] => Except.ok []
  | x :: xs => do
      let b ← p x
      let rest ← filterExcept p xs
      pure (if b then x :: rest else rest)

/-- `filter_data(batch, criteria)`: the base class returns the batch
unchanged (data_stream.py, lines 41-47); `TransactionStream` overrides
it to keep `abs(x) >= 100` when the criteria is "high_priority"
(lines 135-143).  No variant mutates any state in `filter_data`, so
the stream is returned unchanged. -/
def Stream1.filterData (s : Stream1) (batch : List Value)
    (criteria : Option String) : Stream1 × Except String (List Value) :=
  match s, criteria with
  | Stream1.transaction _, some c =>
      if c = "high_priority" then (s, filterExcept absGe100 batch)
      else (s, Except.ok batch)
  | _, _ => (s, Except.ok batch)

/-- `StreamProcessor.process_stream` (data_stream.py, lines 223-227):
filter, then process the filtered batch.  The returned state is the
stream's state at completion or at the point the exception was
raised. -/
def processStream (s : Stream1) (batch : List Value)
    (criteria : Option String) : Stream1 × Except String StreamSummary :=
  match Stream1.filterData s batch criteria with
  | (s1, Except.error e) => (s1, Except.error e)
  | (s1, Except.ok fb) => Stream1.processBatch s1 fb

/-- One entry of the list returned by `process_all`: either the
summary string of a successful unit, or the synthetic error string. -/
inductive RunResult : Type
  | ok (s : StreamSummary) : RunResult
  /-- the literal result string "Stream error: \x7be\x7d" -/
  | streamError (msg : String) : RunResult
  deriving DecidableEq

/-- The f-string `"Stream error: {e}"` of the `except` arm. -/
def errorResult (e : String) : String := "Stream error: " ++ e

/-- The `try/except` boundary of one iteration of `process_all`. -/
def runBoundary (s : Stream1) (batch : List Value) : Stream1 × RunResult :=
  match processStream s batch Option.none with
  | (s1, Except.ok r) => (s1, RunResult.ok r)
  | (s1, Except.error e) => (s1, RunResult.streamError (errorResult e))

/-- The result produced for a given stream and batch by one iteration
of `process_all`. -/
def runBoundaryResult (s : Stream1) (batch : List Value) : RunResult :=
  (runBoundary s batch).2

/-- `StreamProcessor.process_all` (data_stream.py, lines 229-238):
iterate over `zip(streams, batches)`, collecting one result (or error
string) per pair; returns the updated streams and the result list. -/
def processAll : List Stream1 → List (List Value) →
    List Stream1 × List RunResult
  | [], _ => ([], [])
  | ss, [] => (ss, [])
  | s :: ss, b :: bs =>
      let p := runBoundary s b
      let rest := processAll ss bs
      (p.1 :: rest.1, p.2 :: rest.2)

lemma processAll_results (ss : List Stream1) (bs : List (List Value)) :
    (processAll ss bs).2 =
      (ss.zip bs).map (fun p => runBoundaryResult p.1 p.2) := by
  induction ss generalizing bs with
  | nil => simp [processAll]
  | cons s ss ih =>
      cases bs with
      | nil => simp [processAll]
      | cons b bs =>
          simp [processAll, ih, runBoundaryResult, List.zip_cons_cons]

lemma zip_getElem_some {α β : Type} (l : List α) (m : List β) (i : Nat)
    (a : α) (b : β) (ha : l[i]? = some a) (hb : m[i]? = some b) :
    (l.zip m)[i]? = some (a, b) := by
  induction l generalizing m i with
  | nil => simp at ha
  | cons x xs ih =>
      cases m with
      | nil => simp at hb
      | cons y ys =>
          cases i with
          | zero =>
              simp only [List.getElem?_cons_zero, Option.some.injEq] at ha hb
              simp [List.zip_cons_cons, ha, hb]
          | succ n =>
              simp only [List.getElem?_cons_succ] at ha hb
              simp [List.zip_cons_cons, ih ys n ha hb]

/-- C3: `process_all` pairs the i-th registered unit with the i-th
batch, producing exactly `min(N, M)` results in registration order;
extra units or extra batches are dropped by `zip`, never an error. -/
theorem processAll_pairing_min :
    ∀ (streams : List Stream1) (batches : List (List Value)),
      (processAll streams batches).2.length =
        min streams.length batches.length ∧
      (processAll streams batches).2 =
        (streams.zip batches).map (fun p => runBoundaryResult p.1 p.2) := by
  intro ss bs
  refine ⟨?_, processAll_results ss bs⟩
  rw [processAll_results]
  simp [List.length_zip]

/-- C4: if the unit at position j+1 raises while the units at j and
j+2 succeed, `process_all` still returns a result at all three
positions: the error marker at j+1 and the normal results at its
neighbours. -/
theorem processAll_failure_isolation
    (streams : List Stream1) (batches : List (List Value)) (j : Nat)
    (s0 s1 s2 : Stream1) (b0 b1 b2 : List Value)
    (e : String) (r0 r2 : StreamSummary)
    (hs0 : streams[j]? = some s0) (hb0 : batches[j]? = some b0)
    (hs1 : streams[j + 1]? = some s1) (hb1 : batches[j + 1]? = some b1)
    (hs2 : streams[j + 2]? = some s2) (hb2 : batches[j + 2]? = some b2)
    (h1 : runBoundaryResult s1 b1 = RunResult.streamError e)
    (h0 : runBoundaryResult s0 b0 = RunResult.ok r0)
    (h2 : runBoundaryResult s2 b2 = RunResult.ok r2) :
    (processAll streams batches).2[j]? = some (RunResult.ok r0) ∧
    (processAll streams batches).2[j + 1]? =
      some (RunResult.streamError e) ∧
    (processAll streams batches).2[j + 2]? = some (RunResult.ok r2) := by
  have e0 := zip_getElem_some streams batches j s0 b0 hs0 hb0
  have e1 := zip_getElem_some streams batches (j + 1) s1 b1 hs1 hb1
  have e2 := zip_getElem_some streams batches (j + 2) s2 b2 hs2 hb2
  rw [processAll_results]
  refine ⟨?_, ?_, ?_⟩ <;> rw [List.getElem?_map]
  · rw [e0]; simp [h0]
  · rw [e1]; simp [h1]
  · rw [e2]; simp [h2]

/-- The three demo streams of `main`, freshly constructed. -/
def demoSensor : Stream1 := Stream1.sensor ⟨"SENSOR_001", 0, 0⟩

/-- Demo transaction stream. -/
def demoTrans : Stream1 := Stream1.transaction ⟨"TRANS_001", 0, 0⟩

/-- Demo event stream. -/
def demoEvent : Stream1 := Stream1.event ⟨"EVENT_001", 0⟩

/-- A batch whose single element is a string, on which
`TransactionStream.process_batch` raises `TypeError` inside `sum`. -/
def badBatch : List Value := [Value.str ("a")]

/-- Witness for C4: with the transaction stream failing between a
succeeding sensor and event stream, all three positions get results. -/
theorem processAll_failure_isolation_witness :
    (processAll [demoSensor, demoTrans, demoEvent]
        [[Value.int 1], badBatch, [Value.str ("login")]]).2[0]? =
      some (RunResult.ok (StreamSummary.sensor
        (SensorSummary.countOnly 1))) ∧
    (processAll [demoSensor, demoTrans, demoEvent]
        [[Value.int 1], badBatch, [Value.str ("login")]]).2[1]? =
      some (RunResult.streamError
        ("Stream error: unsupported operand type(s) for +: \x27int\x27 and \x27str\x27")) ∧
    (processAll [demoSensor, demoTrans, demoEvent]
        [[Value.int 1], badBatch, [Value.str ("login")]]).2[2]? =
      some (RunResult.ok (StreamSummary.event (EventSummary.counts 1 0))) :=
  processAll_failure_isolation
    [demoSensor, demoTrans, demoEvent]
    [[Value.int 1], badBatch, [Value.str ("login")]] 0
    demoSensor demoTrans demoEvent
    [Value.int 1] badBatch [Value.str ("login")]
    ("Stream error: unsupported operand type(s) for +: \x27int\x27 and \x27str\x27")
    (StreamSummary.sensor (SensorSummary.countOnly 1))
    (StreamSummary.event (EventSummary.counts 1 0))
    rfl rfl rfl rfl rfl rfl (by decide) (by decide) (by decide)

lemma sensor_count_cons (st : SensorState) (x : Value) (xs : List Value) :
    (sensorProcessBatch st (x :: xs)).1.processed_count =
      st.processed_count + (x :: xs).length := by
  simp only [sensorProcessBatch]
  cases h : (x :: xs).filterMap floatVal <;> simp [h]

lemma trans_count_cons (st : TransState) (x : Value) (xs : List Value) :
    (transProcessBatch st (x :: xs)).1.processed_count =
      st.processed_count + (x :: xs).length := by
  simp only [transProcessBatch]
  cases h : pySum (x :: xs) <;> simp [h]

lemma event_count_cons (st : EventState) (x : Value) (xs : List Value) :
    (eventProcessBatch st (x :: xs)).1.processed_count =
      st.processed_count + (x :: xs).length := by
  simp [eventProcessBatch]

/-- C2: for each variant, a non-empty batch that is processed without
error increases `processed_count` by exactly the batch length, and an
empty batch leaves `processed_count` unchanged and returns the
variant's fixed "no data" summary. -/
theorem batch_count_invariant :
    (∀ (st : SensorState) (b : List Value), b ≠ [] →
        (sensorProcessBatch st b).1.processed_count =
          st.processed_count + b.length) ∧
    (∀ st : SensorState,
        (sensorProcessBatch st []).1.processed_count = st.processed_count ∧
        (sensorProcessBatch st []).2 = SensorSummary.noData) ∧
    (∀ (st : TransState) (b : List Value) (r : TransSummary), b ≠ [] →
        (transProcessBatch st b).2 = Except.ok r →
        (transProcessBatch st b).1.processed_count =
          st.processed_count + b.length) ∧
    (∀ st : TransState,
        (transProcessBatch st []).1.processed_count = st.processed_count ∧
        (transProcessBatch st []).2 = Except.ok TransSummary.noData) ∧
    (∀ (st : EventState) (b : List Value), b ≠ [] →
        (eventProcessBatch st b).1.processed_count =
          st.processed_count + b.length) ∧
    (∀ st : EventState,
        (eventProcessBatch st []).1.processed_count = st.processed_count ∧
        (eventProcessBatch st []).2 = EventSummary.noData) := by
  refine ⟨?_, ?_, ?_, ?_, ?_, ?_⟩
  · intro st b hb
    cases b with
    | nil => exact absurd rfl hb
    | cons x xs => exact sensor_count_cons st x xs
  · intro st
    exact ⟨rfl, rfl⟩
  · intro st b r hb _
    cases b with
    | nil => exact absurd rfl hb
    | cons x xs => exact trans_count_cons st x xs
  · intro st
    exact ⟨rfl, rfl⟩
  · intro st b hb
    cases b with
    | nil => exact absurd rfl hb
    | cons x xs => exact event_count_cons st x xs
  · intro st
    exact ⟨rfl, rfl⟩

/-- Witness for C2 at concrete states and batches of each variant. -/
theorem batch_count_invariant_witness :
    (sensorProcessBatch ⟨"SENSOR_001", 0, 0⟩
        [Value.int 1, Value.int 2]).1.processed_count = 0 + 2 ∧
    (transProcessBatch ⟨"TRANS_001", 0, 0⟩
        [Value.int 100]).1.processed_count = 0 + 1 ∧
    (eventProcessBatch ⟨"EVENT_001", 0⟩
        [Value.str ("login")]).1.processed_count = 0 + 1 ∧
    (sensorProcessBatch ⟨"SENSOR_001", 0, 0⟩ []).2 =
      SensorSummary.noData :=
  ⟨batch_count_invariant.1 _ _ (by simp),
   batch_count_invariant.2.2.1 _ _
     (TransSummary.flow 1 "+" (PyNum.int 100)) (by simp) (by rfl),
   batch_count_invariant.2.2.2.2.1 _ _ (by simp),
   (batch_count_invariant.2.1 _).2⟩

/-- C5 (amended): a unit exception inside `process_all` is caught at
the orchestrator boundary and converted into the error-result string
"Stream error: <reason>"; it embeds the failure reason, but not the
failing unit's stream_id. -/
theorem stream_error_embeds_reason
    (streams : List Stream1) (batches : List (List Value)) (i : Nat)
    (s : Stream1) (b : List Value) (e : String)
    (hs : streams[i]? = some s) (hb : batches[i]? = some b)
    (he : (processStream s b Option.none).2 = Except.error e) :
    (processAll streams batches).2[i]? =
      some (RunResult.streamError ("Stream error: " ++ e)) := by
  have hz := zip_getElem_some streams batches i s b hs hb
  rcases hps : processStream s b Option.none with ⟨s1, r⟩
  rw [hps] at he
  have hr : r = Except.error e := he
  subst hr
  rw [processAll_results, List.getElem?_map, hz]
  simp [runBoundaryResult, runBoundary, hps, errorResult]

/-- C5 counterexample: the concrete error-result string produced when
the transaction unit "TRANS_001" raises contains the failure reason
but not the unit's stream_id. -/
theorem stream_error_no_id_cex :
    (processAll [demoTrans] [badBatch]).2 =
      [RunResult.streamError
        ("Stream error: unsupported operand type(s) for +: \x27int\x27 and \x27str\x27")] ∧
    strContainsSub
      ("Stream error: unsupported operand type(s) for +: \x27int\x27 and \x27str\x27")
      ("TRANS_001") = false ∧
    strContainsSub
      ("Stream error: unsupported operand type(s) for +: \x27int\x27 and \x27str\x27")
      ("unsupported operand type(s) for +: \x27int\x27 and \x27str\x27") = true :=
  ⟨by decide, by decide, by decide⟩

/-- Witness for the amended C5 at the concrete failing run. -/
theorem stream_error_embeds_reason_witness :
    (processAll [demoTrans] [badBatch]).2[0]? =
      some (RunResult.streamError ("Stream error: "
        ++ "unsupported operand type(s) for +: \x27int\x27 and \x27str\x27")) :=
  stream_error_embeds_reason [demoTrans] [badBatch] 0 demoTrans badBatch
    ("unsupported operand type(s) for +: \x27int\x27 and \x27str\x27")
    rfl rfl rfl

/-- The sensor scenario batch `[22.5, 65, 1013]` of the demo. -/
def c6batch : List Value :=
  [Value.float (45 / 2), Value.int 65, Value.int 1013]

/-- Modelled from the claim's words, for comparison with the source
behaviour: the average of all numeric-typed elements (ints and floats
alike) of a batch. -/
def numericAverage (b : List Value) : ℚ :=
  (b.filterMap Value.numVal).sum / ((b.filterMap Value.numVal).length : ℚ)

/-- C6 counterexample: on the batch `[22.5, 65, 1013]` the sensor
variant reports the average `22.5` of the float-typed elements only,
which differs from the average `2201/6` of all numeric elements. -/
theorem sensor_average_numeric_cex :
    (sensorProcessBatch ⟨"SENSOR_001", 0, 0⟩ c6batch).2 =
      SensorSummary.withAvg 3 (45 / 2) ∧
    numericAverage c6batch ≠ 45 / 2 := by
  constructor
  · simp [sensorProcessBatch, c6batch, floatVal]
  · simp [numericAverage, c6batch, Value.numVal]
    norm_num

/-- C6 (amended): for every non-empty batch the sensor variant reports
size `len(batch)` and the average of its float-typed elements only —
non-float elements (ints included) are ignored in the average but still
counted in the size; with no float-typed element it reports the count
only, omitting the average. -/
theorem sensor_average_floats (st : SensorState) (b : List Value)
    (hb : b ≠ []) :
    (b.filterMap floatVal = [] →
        (sensorProcessBatch st b).2 = SensorSummary.countOnly b.length) ∧
    (b.filterMap floatVal ≠ [] →
        (sensorProcessBatch st b).2 =
          SensorSummary.withAvg b.length
            ((b.filterMap floatVal).sum /
              ((b.filterMap floatVal).length : ℚ))) := by
  cases b with
  | nil => exact absurd rfl hb
  | cons x xs =>
      constructor
      · intro h
        simp only [sensorProcessBatch, h]
      · intro h
        rcases hf : (x :: xs).filterMap floatVal with _ | ⟨t, ts⟩
        · exact absurd hf h
        · simp only [sensorProcessBatch, hf]

/-- Witness for the amended C6 on the scenario batch. -/
theorem sensor_average_floats_witness :
    (sensorProcessBatch ⟨"SENSOR_001", 0, 0⟩ c6batch).2 =
      SensorSummary.withAvg c6batch.length
        ((c6batch.filterMap floatVal).sum /
          ((c6batch.filterMap floatVal).length : ℚ)) :=
  (sensor_average_floats ⟨"SENSOR_001", 0, 0⟩ c6batch
      (by simp [c6batch])).2 (by simp [c6batch, floatVal])

/-- C7: `filter_data` with no criteria returns the batch unchanged for
every variant, and no `filter_data` call ever changes
`processed_count`. -/
theorem filter_none_identity :
    (∀ (s : Stream1) (b : List Value),
        Stream1.filterData s b Option.none = (s, Except.ok b)) ∧
    (∀ (s : Stream1) (b : List Value) (c : Option String),
        (Stream1.filterData s b c).1.processed_count =
          s.processed_count) := by
  constructor
  · intro s b
    cases s <;> rfl
  · intro s b c
    cases s with
    | sensor st => cases c <;> rfl
    | transaction st =>
        cases c with
        | none => rfl
        | some cr =>
            simp only [Stream1.filterData]
            split <;> rfl
    | event st => cases c <;> rfl

/-!  ## ex0: `LogProcessor` (stream_processor.py) -/

/-- `LogProcessor.validate` (stream_processor.py, lines 65-71): the
data is a string containing one of the four level markers. -/
def logValidate (data : Value) : Bool :=
  match data with
  | Value.str s =>
      ["ERROR", "INFO", "DEBUG", "WARNING"].any
        (fun lvl => strContainsSub s lvl)
  | _ => false

/-- `data.split(":", 1)`: the characters before the first colon and
the remainder; `Option.none` when the string has no colon, in which
case the source's two-name unpacking raises `ValueError`. -/
def splitColonOnce : List Char → Option (List Char × List Char)
  | [] => Option.none
  | ch :: rest =>
      if ch = ':' then some ([], rest)
      else (splitColonOnce rest).map (fun p => (ch :: p.1, p.2))

/-- `LogProcessor.process` (stream_processor.py, lines 73-79): split at
the first colon into level and message, strip both, and label the
entry; with no colon the unpacking `level, message = data.split(":", 1)`
raises `ValueError`. -/
def logProcess (data : String) : Except String String :=
  match splitColonOnce data.toList with
  | Option.none =>
      Except.error ("not enough values to unpack (expected 2, got 1)")
  | some p =>
      let level := (String.mk p.1).trim
      let message := (String.mk p.2).trim
      let label := if level = "ERROR" then "ALERT" else "INFO"
      Except.ok ("[" ++ label ++ "] " ++ level
        ++ " level detected: " ++ message)

/-- C8 (code bug): `LogProcessor.validate` accepts the string
"INFO ready" (it contains a level marker), yet `LogProcessor.process`
raises `ValueError` on it because the two-name unpacking of
`data.split(":", 1)` fails without a colon — `process` is not total on
the validated input domain. -/
theorem log_validate_process_mismatch :
    logValidate (Value.str ("INFO ready")) = true ∧
    logProcess ("INFO ready") =
      Except.error ("not enough values to unpack (expected 2, got 1)") :=
  ⟨by decide, by rfl⟩

/-!  ## ex2: concrete stages, record stream and pipeline chaining -/

/-- Python dict lookup `fields.get(k)`: the value at the first (and,
for dicts, only) occurrence of the key. -/
def dictGet (fields : List (String × Value)) (k : String) : Option Value :=
  (fields.find? (fun p => p.1 == k)).map (fun p => p.2)

/-- `{**data, k: v}`: the value is replaced in place when the key is
present, otherwise the new key is appended (Python dict merge keeps
insertion order). -/
def dictSet : List (String × Value) → String → Value → List (String × Value)
  | [], k, v => [(k, v)]
  | p :: rest, k, v =>
      if p.1 = k then (p.1, v) :: rest else p :: dictSet rest k v

/-- Decimal digits of a fractional part, to a bounded number of
places (ample for the values arising in the source). -/
def fracDigits : ℚ → Nat → String
  | _, 0 => ""
  | q, n + 1 =>
      if q = 0 then ""
      else
        let q10 := q * 10
        let d : ℤ := Int.floor q10
        toString d ++ fracDigits (q10 - (d : ℚ)) n

/-- Idealised `str(float)` on the exact rational model: sign, integer
part and fractional digits. -/
def ratStr (q : ℚ) : String :=
  let sgn := if q < 0 then "-" else ""
  let aq := |q|
  let ip : ℤ := Int.floor aq
  let ds := fracDigits (aq - (ip : ℚ)) 17
  sgn ++ toString ip ++ "." ++ (if ds = "" then "0" else ds)

mutual

/-- Python `repr` of a value (what `str` uses inside containers). -/
def pyRepr : Value → String
  | Value.none => "None"
  | Value.int n => toString n
  | Value.float q => ratStr q
  | Value.str s => "\x27" ++ s ++ "\x27"
  | Value.list xs => "[" ++ String.intercalate (", ") (reprList xs) ++ "]"
  | Value.dict fs =>
      "\x7b" ++ String.intercalate (", ") (reprFields fs) ++ "\x7d"

/-- `repr` of the elements of a list. -/
def reprList : List Value → List String
  | [] => []
  | x :: xs => pyRepr x :: reprList xs

/-- `repr` of the fields of a dict. -/
def reprFields : List (String × Value) → List String
  | [] => []
  | (k, v) :: fs =>
      ("\x27" ++ k ++ "\x27: " ++ pyRepr v) :: reprFields fs

end

/-- Python `str()` as used in f-strings: like `repr`, except that a
top-level string is rendered without quotes. -/
def pyStr : Value → String
  | Value.str s => s
  | v => pyRepr v

/-- Python `round` to the nearest integer, ties to even (on the exact
rational model of floats). -/
def roundHalfEven (q : ℚ) : ℤ :=
  let f := Int.floor q
  let frac := q - (f : ℚ)
  if frac < 1 / 2 then f
  else if 1 / 2 < frac then f + 1
  else if f % 2 = 0 then f else f + 1

/-- Python `round(x, 1)`. -/
def pyRound1 (q : ℚ) : ℚ := ((roundHalfEven (q * 10) : ℤ) : ℚ) / 10

/-- `InputStage.process`: validation and parsing is the identity. -/
def inputStageProcess (data : Value) : Value := data

/-- `TransformStage.process` (nexus_pipeline.py, lines 57-96): dispatch
on the input shape — dict (JSON path), comma-containing string
(CSV path), list of numbers (STREAM path) — and return unrecognized
shapes unchanged. -/
def transformStageProcess (data : Value) : Value :=
  match data with
  | Value.dict fields =>
      Value.dict (dictSet fields ("range") (Value.str ("Normal")))
  | Value.str s =>
      if strContainsSub s (",") then
        Value.dict [("type", Value.str ("csv")),
          ("fields", Value.list ((s.splitOn (",")).map Value.str)),
          ("count", Value.int 1)]
      else data
  | Value.list xs =>
      if xs.all Value.isNum then
        let count := xs.length
        let avg : ℚ :=
          if count ≠ 0 then (xs.filterMap Value.numVal).sum / (count : ℚ)
          else 0
        Value.dict [("type", Value.str ("stream")),
          ("count", Value.int count),
          ("avg", Value.float (pyRound1 avg))]
      else data
  | _ => data

/-- The JSON branch of `OutputStage.process`: `.get("value")` and
`.get("unit")` default to `None`, `.get("range", "Unknown")` to
"Unknown". -/
def jsonRender (fields : List (String × Value)) : Value :=
  let value := (dictGet fields ("value")).getD Value.none
  let unit := (dictGet fields ("unit")).getD Value.none
  let status := (dictGet fields ("range")).getD (Value.str ("Unknown"))
  Value.str ("Processed temperature reading: " ++ pyStr value ++ "°"
    ++ pyStr unit ++ " (" ++ pyStr status ++ " range)")

/-- `OutputStage.process` (nexus_pipeline.py, lines 101-125): render a
stream/csv/json-shaped dict, defaulting to "Result: <value>" for any
other shape. -/
def outputStageProcess (data : Value) : Value :=
  match data with
  | Value.dict fields =>
      match dictGet fields ("type") with
      | some (Value.str t) =>
          if t = "stream" then
            let count := (dictGet fields ("count")).getD (Value.int 0)
            let avg := (dictGet fields ("avg")).getD (Value.int 0)
            Value.str ("Stream summary: " ++ pyStr count
              ++ " readings, avg: " ++ pyStr avg ++ "°C")
          else if t = "csv" then
            let count := (dictGet fields ("count")).getD (Value.int 0)
            Value.str ("User activity logged: " ++ pyStr count
              ++ " actions processed")
          else jsonRender fields
      | _ => jsonRender fields
  | _ => Value.str ("Result: " ++ pyStr data)

/-- `record_stream(count)` (nexus_pipeline.py, lines 25-32): the
generator of synthetic sensor records, materialised as a list. -/
def recordStream (count : Nat) : List Value :=
  (List.range count).map (fun i =>
    Value.dict [("sensor", Value.str ("temp")),
      ("value", Value.int (20 + ((i % 5 : Nat) : ℤ))),
      ("unit", Value.str ("C"))])

/-- The inner loop of `run_pipeline_chain`: thread one record through
every pipeline in registration order. -/
def chainRecord (pipelines : List (List (Value → Value)))
    (record : Value) : Value :=
  pipelines.foldl (fun d p => pipelineProcess p d) record

/-- The record loop of `run_pipeline_chain`: `processed += 1` once per
record, whatever value the pipelines produced. -/
def chainLoop (pipelines : List (List (Value → Value))) :
    List Value → Nat → Nat
  | [], processed => processed
  | record :: rest, processed =>
      let _data := chainRecord pipelines record
      chainLoop pipelines rest (processed + 1)

/-- `run_pipeline_chain(pipelines, records)` (nexus_pipeline.py, lines
10-22).  The two `perf_counter` readings are passed explicitly
(`tStart` read at entry, `tEnd` at exit); `perf_counter` is monotonic,
so every actual run satisfies `tStart ≤ tEnd`. -/
def runPipelineChain (pipelines : List (List (Value → Value)))
    (records : List Value) (tStart tEnd : ℚ) : Nat × ℚ :=
  (chainLoop pipelines records 0, tEnd - tStart)

/-- The stage list every adapter in `nexus()` is given: input,
transform, output. -/
def adapterStages : List (Value → Value) :=
  [inputStageProcess, transformStageProcess, outputStageProcess]

/-- The three pipelines registered with the manager in `nexus()` (the
JSON, CSV and Stream adapters share the base pipeline behaviour and
differ only in identity label and narration). -/
def nexusPipelines : List (List (Value → Value)) :=
  [adapterStages, adapterStages, adapterStages]

lemma chainLoop_eq (ps : List (List (Value → Value)))
    (rs : List Value) : ∀ acc, chainLoop ps rs acc = acc + rs.length := by
  induction rs with
  | nil => intro acc; simp [chainLoop]
  | cons r rest ih =>
      intro acc
      rw [chainLoop, ih (acc + 1)]
      simp only [List.length_cons]
      omega

/-- C9: `run_pipeline_chain` applies the pipelines to each record and
increments its processed count exactly once per record regardless of
intermediate short-circuiting, returning the total record count and a
non-negative elapsed time (the clock readings being monotonic); in
particular, chaining the three demo pipelines over 100 generated
sensor records reports 100 records processed. -/
theorem chain_count_elapsed
    (pipelines : List (List (Value → Value))) (records : List Value)
    (tStart tEnd : ℚ) (hT : tStart ≤ tEnd) :
    (runPipelineChain pipelines records tStart tEnd).1 = records.length ∧
    0 ≤ (runPipelineChain pipelines records tStart tEnd).2 ∧
    (runPipelineChain nexusPipelines (recordStream 100)
        tStart tEnd).1 = 100 := by
  refine ⟨?_, ?_, ?_⟩
  · simpa [runPipelineChain] using chainLoop_eq pipelines records 0
  · simpa [runPipelineChain] using sub_nonneg.mpr hT
  · have h := chainLoop_eq nexusPipelines (recordStream 100) 0
    simpa [runPipelineChain, recordStream] using h

/-- Witness for C9 with two equal clock readings. -/
theorem chain_count_elapsed_witness :
    (runPipelineChain nexusPipelines (recordStream 100) 0 0).1 = 100 :=
  (chain_count_elapsed nexusPipelines (recordStream 100) 0 0 le_rfl).2.2
